import Mathlib

/-!
A shallow embedding of the armada cluster-utilisation accounting
(package service, file with ClusterUtilisationService), of the job-id
extraction over the event variant set (package events, JobIdFromEvent),
and of the event-backend selection and shutdown sequence of the armada
server (internal/armada/server.go, Serve).

Go maps become association lists or total functions, loops become List
folds and filters, and the fallible Kubernetes listers become Except
inputs.  Helper functions whose code is not among the supplied files
(the common.ComputeResources arithmetic, util.IsManagedPod,
util.FilterNonCompletedPods, the two resource totals) are modelled from
the specification, and each such definition says so in its doc comment.
-/

namespace Armada

/-- Modelled from the spec: common.ComputeResources is a mapping from
resource name to quantity; a name absent from the Go map stands for the
quantity zero, so the mapping is embedded as a total function into Int
(arbitrary precision, negative quantities representable). -/
abbrev ComputeResources := String → Int

namespace ComputeResources

/-- Modelled from the spec: pointwise addition of resource quantities
(commutative and associative). -/
def add (a b : ComputeResources) : ComputeResources := fun r => a r + b r

/-- Modelled from the spec: pointwise subtraction of resource quantities;
the result may be negative and is never clamped at zero. -/
def sub (a b : ComputeResources) : ComputeResources := fun r => a r - b r

/-- The empty collection of resources: every named quantity is zero. -/
def zero : ComputeResources := fun _ => 0

end ComputeResources

/-- The taint effects of k8s.io/api/core/v1. -/
inductive TaintEffect where
  | noSchedule
  | preferNoSchedule
  | noExecute
deriving DecidableEq, Repr

/-- A node taint (v1.Taint); the code under study reads only the effect. -/
structure Taint where
  key : String
  value : String
  effect : TaintEffect
deriving DecidableEq, Repr

/-- The part of v1.NodeSpec that the code reads. -/
structure NodeSpec where
  unschedulable : Bool
  taints : List Taint
deriving DecidableEq, Repr

/-- The part of v1.Node that the code reads: the name, the spec, and the
allocatable resources of the status. -/
structure Node where
  name : String
  spec : NodeSpec
  allocatable : ComputeResources

/-- The phase of a pod (v1.PodPhase). -/
inductive PodPhase where
  | pending
  | running
  | succeeded
  | failed
  | unknown
deriving DecidableEq, Repr

/-- The part of v1.PodSpec that the code reads: the assigned node name,
empty while the pod is pending admission. -/
structure PodSpec where
  nodeName : String
deriving DecidableEq, Repr

/-- The part of v1.Pod that the code reads: name, labels (a Go map,
embedded as an association list), spec, status phase and the resource
requests of the pod. -/
structure Pod where
  name : String
  labels : List (String × String)
  spec : PodSpec
  phase : PodPhase
  resourceRequests : ComputeResources

/-- Lookup in a Go string map embedded as an association list. -/
def lookupLabel (labels : List (String × String)) (key : String) : Option String :=
  (labels.find? fun kv => kv.1 == key).map fun kv => kv.2

/-- Modelled from the spec: the queue label key (domain.Queue); its
literal value is not among the supplied files. -/
def domainQueue : String := "queue"

/-- Modelled from the spec: the dedicated label key that identifies a
managed pod (domain.JobId); its literal value is not among the supplied
files. -/
def domainJobId : String := "job_id"

/-- Modelled from the spec: util.IsManagedPod is not among the supplied
files; the glossary defines a managed pod as one created and tracked by
this scheduling system, identified via a dedicated label. -/
def IsManagedPod (pod : Pod) : Bool :=
  (lookupLabel pod.labels domainJobId).isSome

/-- Modelled from the spec: a completed pod is one in succeeded or failed
phase. -/
def IsCompletedPod (pod : Pod) : Bool :=
  pod.phase == PodPhase.succeeded || pod.phase == PodPhase.failed

/-- Modelled from the spec: util.FilterNonCompletedPods is not among the
supplied files; the spec excludes completed pods (succeeded or failed
phase) from consumption regardless of binding. -/
def FilterNonCompletedPods (pods : List Pod) : List Pod :=
  pods.filter fun pod => !(IsCompletedPod pod)

/-- Modelled from the spec: common.CalculateTotalResource is not among
the supplied files; it totals the allocatable capacity of the given
nodes. -/
def CalculateTotalResource (nodes : List Node) : ComputeResources :=
  nodes.foldl (fun total node => total.add node.allocatable) ComputeResources.zero

/-- Modelled from the spec: common.CalculateTotalResourceLimit is not
among the supplied files; per the accounting contract it totals the
resource requests of the given pods. -/
def CalculateTotalResourceLimit (pods : List Pod) : ComputeResources :=
  pods.foldl (fun total pod => total.add pod.resourceRequests) ComputeResources.zero

/-- The availability test of the source (isAvailableProcessingNode): a
node is rejected when marked unschedulable, or when some taint has the
NoSchedule effect; the loop with break is embedded as List.any. -/
def isAvailableProcessingNode (node : Node) : Bool :=
  if node.spec.unschedulable then
    false
  else
    let noSchedule := node.spec.taints.any fun taint => taint.effect == TaintEffect.noSchedule
    if noSchedule then false else true

/-- The source filterAvailableProcessingNodes: the append loop over nodes
keeping those that pass isAvailableProcessingNode, embedded as a filter. -/
def filterAvailableProcessingNodes (nodes : List Node) : List Node :=
  nodes.filter isAvailableProcessingNode

/-- The presence test of getAllPodsRequiringResourceOnProcessingNodes:
the Go code builds a map from node name to node over the worker nodes
and asks whether the pod's assigned node name is a key of it. -/
def presentOnWorkerNode (workerNodes : List Node) (pod : Pod) : Bool :=
  workerNodes.any fun node => node.name == pod.spec.nodeName

/-- The source getAllPodsRequiringResourceOnProcessingNodes: keep a pod
when its assigned node is one of the worker nodes, otherwise when it is
a managed pod whose node assignment is empty; the append loop is
embedded as a filter. -/
def getAllPodsRequiringResourceOnProcessingNodes
    (allPods : List Pod) (workerNodes : List Node) : List Pod :=
  allPods.filter fun pod =>
    if presentOnWorkerNode workerNodes pod then true
    else if IsManagedPod pod && pod.spec.nodeName == "" then true
    else false

/-- The source GetAvailableClusterCapacity.  The node lister and the pod
lister (queried with the everything selector) are supplied as Except
values; on a lister error the function returns a fresh empty
ComputeResources together with the wrapped error message, as the source
does, and otherwise the total node resource minus the total resource of
the non-completed pods requiring resource on the processing nodes. -/
def GetAvailableClusterCapacity
    (nodeList : Except String (List Node)) (podList : Except String (List Pod)) :
    ComputeResources × Option String :=
  match nodeList with
  | .error err =>
    (ComputeResources.zero, some ("Failed getting available cluster capacity due to: " ++ err))
  | .ok allNodes =>
    let processingNodes := filterAvailableProcessingNodes allNodes
    match podList with
    | .error err =>
      (ComputeResources.zero, some ("Failed getting available cluster capacity due to: " ++ err))
    | .ok allPods =>
      let allPodsRequiringResource :=
        getAllPodsRequiringResourceOnProcessingNodes allPods processingNodes
      let allNonCompletePodsRequiringResource :=
        FilterNonCompletedPods allPodsRequiringResource
      let totalNodeResource := CalculateTotalResource processingNodes
      let totalPodResource := CalculateTotalResourceLimit allNonCompletePodsRequiringResource
      (totalNodeResource.sub totalPodResource, none)

/-- The api.QueueReport message: a queue name with its aggregated
resources. -/
structure QueueReport where
  name : String
  resources : ComputeResources

/-- The api.ClusterUsageReport message: cluster identity, report time
(embedded as a Nat tick), per-queue reports and the cluster capacity. -/
structure ClusterUsageReport where
  clusterId : String
  reportTime : Nat
  queues : List QueueReport
  clusterCapacity : ComputeResources

/-- The log line the source writes for a pod that carries no queue
label. -/
def missingQueueLogLine (pod : Pod) : String :=
  "Pod " ++ pod.name ++ " found not belonging to a queue, not reporting its usage"

/-- Update of the Go map utilisationByQueue, embedded as an association
list with unique keys: when the queue is already present its stored
total is grown in place (ComputeResources is a reference type in Go, so
the in-place Add of the source updates the stored value), and otherwise
the queue is inserted with the given initial total. -/
def updateUsage :
    List (String × ComputeResources) → String → ComputeResources →
      List (String × ComputeResources)
  | [], queue, res => [(queue, res)]
  | kv :: rest, queue, res =>
    if kv.1 == queue then (kv.1, kv.2.add res) :: rest
    else kv :: updateUsage rest queue res

/-- Lookup in the embedded utilisation map: the total stored for a
queue, none when the queue has no entry. -/
def usageLookup : List (String × ComputeResources) → String → Option ComputeResources
  | [], _ => none
  | kv :: rest, queue => if kv.1 == queue then some kv.2 else usageLookup rest queue

/-- One iteration of the loop of getUsageByQueue: a pod without the
queue label is logged and skipped; otherwise its total resource is
accumulated into (or initialises) the total of its queue. -/
def getUsageByQueueStep
    (acc : List (String × ComputeResources) × List String) (pod : Pod) :
    List (String × ComputeResources) × List String :=
  match lookupLabel pod.labels domainQueue with
  | none => (acc.1, acc.2 ++ [missingQueueLogLine pod])
  | some queue =>
    let podComputeResource := CalculateTotalResourceLimit [pod]
    (updateUsage acc.1 queue podComputeResource, acc.2)

/-- The source getUsageByQueue: fold the loop body over the pods,
starting from the empty map; the result pairs the utilisation map with
the log lines written. -/
def getUsageByQueue (pods : List Pod) :
    List (String × ComputeResources) × List String :=
  pods.foldl getUsageByQueueStep ([], [])

/-- The source createReportsOfQueueUsages: one QueueReport per entry of
the utilisation map. -/
def createReportsOfQueueUsages (pods : List Pod) : List QueueReport :=
  (getUsageByQueue pods).1.map fun kv => { name := kv.1, resources := kv.2 }

/-- The observable outcome of one reporting cycle: the reports handed to
the usage sink, the error log lines written, and whether the call
terminated the process (the source only ever logs at error level and
returns, never calls a fatal logger, so the embedding records false in
every branch it is written from). -/
structure ReportCycleResult where
  sentReports : List ClusterUsageReport
  loggedErrors : List String
  fatal : Bool

/-- The source ReportClusterUtilisation.  The node lister is supplied as
an Except value; the pod lister, queried through getAllActiveManagedPods
with the managed-pod selector, is supplied as an Except value already
restricted to managed pods (the selector itself is not among the
supplied files), to which the non-completed filter of
getAllActiveManagedPods is applied; sendOutcome gives the error, if any,
of the usage transport for the report handed to it; now stamps the
report. -/
def ReportClusterUtilisation (clientId : String) (now : Nat)
    (nodeList : Except String (List Node))
    (managedPodList : Except String (List Pod))
    (sendOutcome : ClusterUsageReport → Option String) : ReportCycleResult :=
  match nodeList with
  | .error err =>
    { sentReports := []
      loggedErrors :=
        ["Failed to get required information to report cluster usage because " ++ err]
      fatal := false }
  | .ok allNodes =>
    let allAvailableProcessingNodes := filterAvailableProcessingNodes allNodes
    let totalNodeResource := CalculateTotalResource allAvailableProcessingNodes
    match managedPodList with
    | .error err =>
      { sentReports := []
        loggedErrors :=
          ["Failed to get required information to report cluster usage because " ++ err]
        fatal := false }
    | .ok managedPods =>
      let allActiveManagedPods := FilterNonCompletedPods managedPods
      let queueReports := createReportsOfQueueUsages allActiveManagedPods
      let clusterUsage : ClusterUsageReport :=
        { clusterId := clientId
          reportTime := now
          queues := queueReports
          clusterCapacity := totalNodeResource }
      match sendOutcome clusterUsage with
      | some err =>
        { sentReports := [clusterUsage]
          loggedErrors := ["Failed to report cluster usage because " ++ err]
          fatal := false }
      | none =>
        { sentReports := [clusterUsage], loggedErrors := [], fatal := false }

/-- The Uuid message of the events package: two unsigned 64-bit words,
embedded as Nat (the function under study only ever writes zero). -/
structure Uuid where
  high64 : Nat
  low64 : Nat
deriving DecidableEq, Repr

/-- The armadaerrors.ErrInvalidArgument error: the offending field name,
its value (the embedding renders the value as the variant tag) and a
message. -/
structure ErrInvalidArgument where
  name : String
  value : String
  message : String
deriving DecidableEq, Repr

/-- The variants of the EventSequence_Event oneof that the type switch
of JobIdFromEvent handles, each carrying the JobId pointer field of its
sub-message (none embeds a nil pointer).  The remaining variants of the
oneof are not among the supplied files; modelled from the spec,
otherEvent stands for an event variant that carries no job id, tagged
with the variant name. -/
inductive EventSequenceEvent where
  | submitJob (jobId : Option Uuid)
  | reprioritiseJob (jobId : Option Uuid)
  | cancelJob (jobId : Option Uuid)
  | jobSucceeded (jobId : Option Uuid)
  | jobRunSucceeded (jobId : Option Uuid)
  | jobRunLeased (jobId : Option Uuid)
  | jobRunAssigned (jobId : Option Uuid)
  | jobRunRunning (jobId : Option Uuid)
  | jobRunErrors (jobId : Option Uuid)
  | otherEvent (variant : String)
deriving DecidableEq, Repr

/-- The source JobIdFromEvent: the type switch over the event variants,
returning the Go pair of the job-id pointer and the error.  The default
branch returns a freshly allocated zero-valued Uuid together with an
invalid-argument error (the embedded message drops the apostrophe of the
source text). -/
def JobIdFromEvent : EventSequenceEvent → Option Uuid × Option ErrInvalidArgument
  | .submitJob jobId => (jobId, none)
  | .reprioritiseJob jobId => (jobId, none)
  | .cancelJob jobId => (jobId, none)
  | .jobSucceeded jobId => (jobId, none)
  | .jobRunSucceeded jobId => (jobId, none)
  | .jobRunLeased jobId => (jobId, none)
  | .jobRunAssigned jobId => (jobId, none)
  | .jobRunRunning jobId => (jobId, none)
  | .jobRunErrors jobId => (jobId, none)
  | .otherEvent variant =>
    (some { high64 := 0, low64 := 0 },
      some
        { name := "event.Event"
          value := variant
          message := "event does not contain a jobId" })

/-- The job-id pointer a variant carries: none for a variant that
carries no job id, some of the pointer field otherwise. -/
def carriedJobId : EventSequenceEvent → Option (Option Uuid)
  | .submitJob jobId => some jobId
  | .reprioritiseJob jobId => some jobId
  | .cancelJob jobId => some jobId
  | .jobSucceeded jobId => some jobId
  | .jobRunSucceeded jobId => some jobId
  | .jobRunLeased jobId => some jobId
  | .jobRunAssigned jobId => some jobId
  | .jobRunRunning jobId => some jobId
  | .jobRunErrors jobId => some jobId
  | .otherEvent _ => none

/-- The part of the Kafka events configuration that Serve reads. -/
structure KafkaConfig where
  brokers : List String
  topic : String
  consumerGroupID : String
deriving DecidableEq, Repr

/-- The part of the NATS events configuration that Serve reads. -/
structure NatsConfig where
  servers : List String
  clusterID : String
  subject : String
  queueGroup : String
deriving DecidableEq, Repr

/-- The part of configuration.ArmadaConfig that the embedded fragment of
Serve reads. -/
structure ArmadaConfig where
  eventsKafka : KafkaConfig
  eventsNats : NatsConfig
deriving DecidableEq, Repr

/-- Which implementation backs the repository.EventStore interface. -/
inductive EventStoreChoice where
  | kafkaEventStore
  | natsEventStore
  | redisEventRepository
deriving DecidableEq, Repr

/-- What the event-backend branch of Serve wires: the event store
chosen, the background tasks registered with the task manager (name and
poll interval in milliseconds), whether the push-driven NATS processor
is started, and whether the stopSubscription closure returned for
shutdown closes a real subscription (it is the no-op closure unless the
NATS branch ran). -/
structure EventWiring where
  eventStore : EventStoreChoice
  registeredTasks : List (String × Nat)
  natsProcessorStarted : Bool
  subscriptionToClose : Bool
deriving DecidableEq, Repr

/-- The event-backend selection of Serve (server.go): Kafka when the
broker list is non-empty, otherwise NATS when the server list is
non-empty, otherwise the direct Redis event repository; the Kafka branch
registers the polled Kafka-to-Redis processor at 100 milliseconds, the
NATS branch starts the push-driven processor and arranges for its
subscription to be closed on shutdown. -/
def configureEventStore (config : ArmadaConfig) : EventWiring :=
  if config.eventsKafka.brokers.length > 0 then
    { eventStore := .kafkaEventStore
      registeredTasks := [("kafka_redis_processor", 100)]
      natsProcessorStarted := false
      subscriptionToClose := false }
  else if config.eventsNats.servers.length > 0 then
    { eventStore := .natsEventStore
      registeredTasks := []
      natsProcessorStarted := true
      subscriptionToClose := true }
  else
    { eventStore := .redisEventRepository
      registeredTasks := []
      natsProcessorStarted := false
      subscriptionToClose := false }

/-- One step of the shutdown closure that Serve returns. -/
inductive ShutdownStep where
  | stopSubscription (closesSubscription : Bool)
  | stopAllTasks (timeoutMillis : Nat)
  | gracefulStop
deriving DecidableEq, Repr

/-- The closure Serve returns for shutdown (server.go lines 132 to 136),
as the ordered sequence of steps it performs: stopSubscription (closing
the streaming subscription when the NATS branch created one), then
StopAll on the task manager with a two-second timeout, then the graceful
stop of the grpc server. -/
def serveShutdownSequence (config : ArmadaConfig) : List ShutdownStep :=
  [ShutdownStep.stopSubscription (configureEventStore config).subscriptionToClose,
    ShutdownStep.stopAllTasks 2000,
    ShutdownStep.gracefulStop]

/-- The capacity formula in the words of the specification: for each
resource, the total allocatable capacity of the available processing
nodes minus the summed requests of every non-completed pod that is bound
to one of those nodes or is a managed pod pending onto them; stated with
plain list sums, to be compared with the value the source computes. -/
def specAvailableCapacity (allNodes : List Node) (allPods : List Pod) : ComputeResources :=
  fun r =>
    let processing := allNodes.filter isAvailableProcessingNode
    let consuming := allPods.filter fun pod =>
      !(IsCompletedPod pod) &&
        (presentOnWorkerNode processing pod || (IsManagedPod pod && pod.spec.nodeName == ""))
    (processing.map fun node => node.allocatable r).sum
      - (consuming.map fun pod => pod.resourceRequests r).sum

/-- A managed pod pending admission requesting 1000 units of cpu; a
concrete input for the statements below. -/
def pendingManagedPod : Pod :=
  { name := "pending-pod"
    labels := [(domainJobId, "job-1"), (domainQueue, "queue-a")]
    spec := { nodeName := "" }
    phase := PodPhase.pending
    resourceRequests := fun r => if r == "cpu" then 1000 else 0 }

/-- A running pod of queue-a on node-1 requesting cpu; a concrete input
for the statements below. -/
def podA : Pod :=
  { name := "pod-a"
    labels := [(domainQueue, "queue-a")]
    spec := { nodeName := "node-1" }
    phase := PodPhase.running
    resourceRequests := fun r => if r == "cpu" then 250 else 0 }

/-- A running pod of queue-a on node-2 requesting memory; a concrete
input for the statements below. -/
def podB : Pod :=
  { name := "pod-b"
    labels := [(domainQueue, "queue-a")]
    spec := { nodeName := "node-2" }
    phase := PodPhase.running
    resourceRequests := fun r => if r == "memory" then 512 else 0 }

/-! Helper lemmas shared by the claim theorems. -/

/-- The resource fold over nodes, applied at one resource name, is the
accumulator plus the sum of the allocatable quantities. -/
theorem foldl_add_allocatable (nodes : List Node) (acc : ComputeResources) (r : String) :
    (nodes.foldl (fun total node => total.add node.allocatable) acc) r
      = acc r + (nodes.map fun node => node.allocatable r).sum := by
  induction nodes generalizing acc with
  | nil => simp
  | cons n ns ih =>
    rw [List.foldl_cons, ih, List.map_cons, List.sum_cons]
    simp [ComputeResources.add]
    ring

/-- The resource fold over pods, applied at one resource name, is the
accumulator plus the sum of the requested quantities. -/
theorem foldl_add_requests (pods : List Pod) (acc : ComputeResources) (r : String) :
    (pods.foldl (fun total pod => total.add pod.resourceRequests) acc) r
      = acc r + (pods.map fun pod => pod.resourceRequests r).sum := by
  induction pods generalizing acc with
  | nil => simp
  | cons p ps ih =>
    rw [List.foldl_cons, ih, List.map_cons, List.sum_cons]
    simp [ComputeResources.add]
    ring

/-- CalculateTotalResource at one resource name is the plain sum over
the nodes. -/
theorem calculateTotalResource_apply (nodes : List Node) (r : String) :
    CalculateTotalResource nodes r = (nodes.map fun node => node.allocatable r).sum := by
  rw [CalculateTotalResource, foldl_add_allocatable]
  simp [ComputeResources.zero]

/-- CalculateTotalResourceLimit at one resource name is the plain sum
over the pods. -/
theorem calculateTotalResourceLimit_apply (pods : List Pod) (r : String) :
    CalculateTotalResourceLimit pods r = (pods.map fun pod => pod.resourceRequests r).sum := by
  rw [CalculateTotalResourceLimit, foldl_add_requests]
  simp [ComputeResources.zero]

/-- The selection chain of the pod loop, written as a disjunction. -/
theorem requiresResource_ite_eq (workerNodes : List Node) (pod : Pod) :
    (if presentOnWorkerNode workerNodes pod then true
      else if IsManagedPod pod && pod.spec.nodeName == "" then true else false)
      = (presentOnWorkerNode workerNodes pod
          || (IsManagedPod pod && pod.spec.nodeName == "")) := by
  cases presentOnWorkerNode workerNodes pod <;>
    cases IsManagedPod pod && pod.spec.nodeName == "" <;> simp

/-- The pods whose resources the capacity computation subtracts: the
selection filter followed by the non-completed filter is one filter by
the conjunction of both tests. -/
theorem consuming_pods_eq (allPods : List Pod) (processing : List Node) :
    FilterNonCompletedPods
        (getAllPodsRequiringResourceOnProcessingNodes allPods processing)
      = allPods.filter fun pod =>
          !(IsCompletedPod pod) &&
            (presentOnWorkerNode processing pod
              || (IsManagedPod pod && pod.spec.nodeName == "")) := by
  rw [FilterNonCompletedPods, getAllPodsRequiringResourceOnProcessingNodes,
    List.filter_filter]
  exact List.filter_congr fun pod _ => by rw [requiresResource_ite_eq]

/-! The claim theorems. -/

/-- C1: for every set of nodes and pods, the available cluster capacity
computed by GetAvailableClusterCapacity equals, resource by resource,
the total capacity of the available processing nodes minus the sum of
the requests of all non-completed pods bound to (or, for managed pods,
pending onto) those nodes; and the difference is never floored at zero:
there are inputs for which a computed quantity is negative. -/
theorem getAvailableClusterCapacity_matches_spec_formula :
    (∀ (allNodes : List Node) (allPods : List Pod) (r : String),
        (GetAvailableClusterCapacity (Except.ok allNodes) (Except.ok allPods)).1 r
          = specAvailableCapacity allNodes allPods r)
      ∧ ∃ (allNodes : List Node) (allPods : List Pod) (r : String),
          (GetAvailableClusterCapacity (Except.ok allNodes) (Except.ok allPods)).1 r < 0 := by
  constructor
  · intro allNodes allPods r
    show ((CalculateTotalResource (filterAvailableProcessingNodes allNodes)).sub
        (CalculateTotalResourceLimit (FilterNonCompletedPods
          (getAllPodsRequiringResourceOnProcessingNodes allPods
            (filterAvailableProcessingNodes allNodes))))) r
      = specAvailableCapacity allNodes allPods r
    rw [specAvailableCapacity, ComputeResources.sub, consuming_pods_eq,
      calculateTotalResource_apply, calculateTotalResourceLimit_apply,
      filterAvailableProcessingNodes]
  · exact ⟨[], [pendingManagedPod], "cpu", by decide⟩

/-- C2: JobIdFromEvent is total over the event variant set: every
variant that carries a job id yields that job id with no error, and a
variant carrying no job id yields an invalid-argument error surfaced to
the caller. -/
theorem jobIdFromEvent_total (e : EventSequenceEvent) :
    (∀ jobId, carriedJobId e = some jobId → JobIdFromEvent e = (jobId, none))
      ∧ (carriedJobId e = none →
          ∃ err, (JobIdFromEvent e).2 = some err
            ∧ err.name = "event.Event"
            ∧ err.message = "event does not contain a jobId") := by
  cases e <;> simp [JobIdFromEvent, carriedJobId]

/-- C3: a node appears among the filtered available processing nodes,
and so contributes to computed capacity, exactly when it belongs to the
input, is not marked unschedulable, and carries no taint with the
NoSchedule effect. -/
theorem mem_filterAvailableProcessingNodes_iff (nodes : List Node) (node : Node) :
    node ∈ filterAvailableProcessingNodes nodes ↔
      node ∈ nodes ∧ node.spec.unschedulable = false
        ∧ ∀ taint ∈ node.spec.taints, taint.effect ≠ TaintEffect.noSchedule := by
  rw [filterAvailableProcessingNodes, List.mem_filter]
  cases h : node.spec.unschedulable <;>
    simp [isAvailableProcessingNode, h, List.any_eq_true]

/-- C4: a pod is selected as requiring resource on processing nodes
exactly when it belongs to the input pods and either is bound to one of
the given worker nodes or is a managed pod whose node assignment is
empty. -/
theorem mem_getAllPodsRequiringResourceOnProcessingNodes_iff
    (allPods : List Pod) (workerNodes : List Node) (pod : Pod) :
    pod ∈ getAllPodsRequiringResourceOnProcessingNodes allPods workerNodes ↔
      pod ∈ allPods ∧
        ((∃ node ∈ workerNodes, node.name = pod.spec.nodeName)
          ∨ (IsManagedPod pod = true ∧ pod.spec.nodeName = "")) := by
  rw [getAllPodsRequiringResourceOnProcessingNodes, List.mem_filter]
  rw [requiresResource_ite_eq]
  simp [presentOnWorkerNode, List.any_eq_true]

/-- C5: when listing the available processing nodes fails or listing the
active managed pods fails, ReportClusterUtilisation hands no usage
report to the sink for that cycle, logs the failure, and returns
normally rather than terminating the process. -/
theorem reportClusterUtilisation_aborts_on_snapshot_failure
    (clientId : String) (now : Nat)
    (nodeList : Except String (List Node))
    (managedPodList : Except String (List Pod))
    (sendOutcome : ClusterUsageReport → Option String)
    (h : (∃ err, nodeList = Except.error err)
          ∨ ∃ err, managedPodList = Except.error err) :
    (ReportClusterUtilisation clientId now nodeList managedPodList sendOutcome).sentReports = []
      ∧ (ReportClusterUtilisation clientId now nodeList managedPodList sendOutcome).loggedErrors ≠ []
      ∧ (ReportClusterUtilisation clientId now nodeList managedPodList sendOutcome).fatal = false := by
  rcases h with ⟨err, he⟩ | ⟨err, he⟩
  · subst he
    simp [ReportClusterUtilisation]
  · subst he
    cases nodeList with
    | error e => simp [ReportClusterUtilisation]
    | ok allNodes => simp [ReportClusterUtilisation]

/-- Witness for C5: a failing node lister on a concrete cycle sends
nothing, logs, and does not terminate. -/
theorem reportClusterUtilisation_aborts_witness :
    (ReportClusterUtilisation "cluster-1" 0 (Except.error "node lister failed")
        (Except.ok []) fun _ => none).sentReports = []
      ∧ (ReportClusterUtilisation "cluster-1" 0 (Except.error "node lister failed")
          (Except.ok []) fun _ => none).loggedErrors ≠ []
      ∧ (ReportClusterUtilisation "cluster-1" 0 (Except.error "node lister failed")
          (Except.ok []) fun _ => none).fatal = false :=
  reportClusterUtilisation_aborts_on_snapshot_failure "cluster-1" 0
    (Except.error "node lister failed") (Except.ok []) (fun _ => none)
    (Or.inl ⟨"node lister failed", rfl⟩)

/-- Appending one pod to the batch runs one more iteration of the loop
body. -/
theorem getUsageByQueue_append_one (pods : List Pod) (pod : Pod) :
    getUsageByQueue (pods ++ [pod])
      = getUsageByQueueStep (getUsageByQueue pods) pod := by
  rw [getUsageByQueue, getUsageByQueue, List.foldl_append]
  rfl

/-- Updating a queue rewrites exactly its own entry: the looked-up total
becomes the initial resource when the queue was absent, and grows by it
when present. -/
theorem usageLookup_updateUsage_self
    (m : List (String × ComputeResources)) (queue : String) (res : ComputeResources) :
    usageLookup (updateUsage m queue res) queue
      = some (match usageLookup m queue with
              | none => res
              | some existing => existing.add res) := by
  induction m with
  | nil => simp [updateUsage, usageLookup]
  | cons kv rest ih =>
    cases h : kv.1 == queue with
    | true => simp [updateUsage, usageLookup, h]
    | false => simp [updateUsage, usageLookup, h, ih]

/-- Updating one queue leaves the totals of every other queue unchanged. -/
theorem usageLookup_updateUsage_ne
    (m : List (String × ComputeResources)) (queue q2 : String)
    (res : ComputeResources) (h : q2 ≠ queue) :
    usageLookup (updateUsage m queue res) q2 = usageLookup m q2 := by
  induction m with
  | nil =>
    have hqq : (queue == q2) = false := beq_eq_false_iff_ne.mpr (Ne.symm h)
    simp [updateUsage, usageLookup, hqq]
  | cons kv rest ih =>
    cases hk : kv.1 == queue with
    | true =>
      have h1 : kv.1 = queue := eq_of_beq hk
      have h2 : (kv.1 == q2) = false := by
        rw [h1]
        exact beq_eq_false_iff_ne.mpr (Ne.symm h)
      simp [updateUsage, usageLookup, hk, h2]
    | false =>
      simp [updateUsage, usageLookup, hk, ih]

/-- Over a fold of the loop body, a queue holds a total exactly when the
accumulator already held one or some processed pod carries its label. -/
theorem usageLookup_foldl_isSome (pods : List Pod) (q : String)
    (acc : List (String × ComputeResources) × List String) :
    ((usageLookup (pods.foldl getUsageByQueueStep acc).1 q).isSome = true ↔
      (usageLookup acc.1 q).isSome = true
        ∨ ∃ p ∈ pods, lookupLabel p.labels domainQueue = some q) := by
  induction pods generalizing acc with
  | nil => simp
  | cons p ps ih =>
    rw [List.foldl_cons, ih]
    cases hl : lookupLabel p.labels domainQueue with
    | none => simp [getUsageByQueueStep, hl]
    | some queue =>
      by_cases hq : q = queue
      · subst hq
        simp [getUsageByQueueStep, hl, usageLookup_updateUsage_self]
      · have h2 : ¬(queue = q) := fun e => hq e.symm
        simp [getUsageByQueueStep, hl, usageLookup_updateUsage_ne _ _ _ _ hq, h2]

/-- C6: per-queue aggregation groups pods by the queue label: a pod
missing the label changes no queue total and only adds an anomaly log
line; for a labelled pod the first sighting of its queue initialises the
total, a later sighting adds to the stored total, and every other queue
is untouched; and a queue holds a total exactly when some pod of the
batch carries its label. -/
theorem getUsageByQueue_grouping (pods : List Pod) (pod : Pod) (q : String) :
    (lookupLabel pod.labels domainQueue = none →
        getUsageByQueue (pods ++ [pod])
          = ((getUsageByQueue pods).1,
              (getUsageByQueue pods).2 ++ [missingQueueLogLine pod]))
      ∧ (∀ queue, lookupLabel pod.labels domainQueue = some queue →
          (getUsageByQueue (pods ++ [pod])).2 = (getUsageByQueue pods).2
            ∧ (usageLookup (getUsageByQueue pods).1 queue = none →
                usageLookup (getUsageByQueue (pods ++ [pod])).1 queue
                  = some (CalculateTotalResourceLimit [pod]))
            ∧ (∀ existing,
                usageLookup (getUsageByQueue pods).1 queue = some existing →
                  usageLookup (getUsageByQueue (pods ++ [pod])).1 queue
                    = some (existing.add (CalculateTotalResourceLimit [pod])))
            ∧ ∀ q2, q2 ≠ queue →
                usageLookup (getUsageByQueue (pods ++ [pod])).1 q2
                  = usageLookup (getUsageByQueue pods).1 q2)
      ∧ ((usageLookup (getUsageByQueue pods).1 q).isSome = true ↔
          ∃ p ∈ pods, lookupLabel p.labels domainQueue = some q) := by
  refine ⟨?_, ?_, ?_⟩
  · intro h
    rw [getUsageByQueue_append_one]
    simp [getUsageByQueueStep, h]
  · intro queue hq
    rw [getUsageByQueue_append_one]
    refine ⟨by simp [getUsageByQueueStep, hq], ?_, ?_, ?_⟩
    · intro hnone
      simp [getUsageByQueueStep, hq, usageLookup_updateUsage_self, hnone]
    · intro existing hex
      simp [getUsageByQueueStep, hq, usageLookup_updateUsage_self, hex]
    · intro q2 hne
      simp [getUsageByQueueStep, hq, usageLookup_updateUsage_ne _ _ _ _ hne]
  · have h := usageLookup_foldl_isSome pods q ([], [])
    simpa [getUsageByQueue, usageLookup] using h

/-- C7: for two pods of the same queue, the aggregated usage does not
depend on the processing order of the batch. -/
theorem getUsageByQueue_comm_same_queue (a b : Pod) (q : String)
    (ha : lookupLabel a.labels domainQueue = some q)
    (hb : lookupLabel b.labels domainQueue = some q) :
    getUsageByQueue [a, b] = getUsageByQueue [b, a] := by
  have hcomm :
      (CalculateTotalResourceLimit [a]).add (CalculateTotalResourceLimit [b])
        = (CalculateTotalResourceLimit [b]).add (CalculateTotalResourceLimit [a]) := by
    funext r
    simp [ComputeResources.add]
    ring
  simp [getUsageByQueue, getUsageByQueueStep, ha, hb, updateUsage, hcomm]

/-- Witness for C7: two concrete pods of queue-a aggregate to the same
totals in either order. -/
theorem getUsageByQueue_comm_same_queue_witness :
    getUsageByQueue [podA, podB] = getUsageByQueue [podB, podA] :=
  getUsageByQueue_comm_same_queue podA podB "queue-a" (by decide) (by decide)

/-- C8: for every configuration, the shutdown procedure Serve returns
performs, in this order, the close of the outbound streaming
subscription (a real close exactly when one exists), then the stop of
the background task manager with its two-second timeout, then the stop
of the server. -/
theorem serveShutdownSequence_order (config : ArmadaConfig) :
    serveShutdownSequence config
        = [ShutdownStep.stopSubscription (configureEventStore config).subscriptionToClose,
            ShutdownStep.stopAllTasks 2000, ShutdownStep.gracefulStop]
      ∧ (serveShutdownSequence config)[0]?
          = some (ShutdownStep.stopSubscription
              (configureEventStore config).subscriptionToClose)
      ∧ (serveShutdownSequence config)[1]? = some (ShutdownStep.stopAllTasks 2000)
      ∧ (serveShutdownSequence config)[2]? = some ShutdownStep.gracefulStop :=
  ⟨rfl, rfl, rfl, rfl⟩

/-- C9: the event-log backend is selected with a fixed precedence: Kafka
whenever the broker list is non-empty (its polled Redis processor is
then registered and the push processor is not started, regardless of the
NATS configuration), otherwise NATS whenever the server list is
non-empty (its push processor is then started), otherwise the direct
Redis event repository. -/
theorem configureEventStore_precedence (config : ArmadaConfig) :
    ((configureEventStore config).eventStore
        = if config.eventsKafka.brokers.length > 0 then EventStoreChoice.kafkaEventStore
          else if config.eventsNats.servers.length > 0 then EventStoreChoice.natsEventStore
          else EventStoreChoice.redisEventRepository)
      ∧ (config.eventsKafka.brokers.length > 0 →
          (configureEventStore config).eventStore = EventStoreChoice.kafkaEventStore
            ∧ (configureEventStore config).registeredTasks
                = [("kafka_redis_processor", 100)]
            ∧ (configureEventStore config).natsProcessorStarted = false)
      ∧ (¬ config.eventsKafka.brokers.length > 0 →
          config.eventsNats.servers.length > 0 →
            (configureEventStore config).eventStore = EventStoreChoice.natsEventStore
              ∧ (configureEventStore config).natsProcessorStarted = true
              ∧ (configureEventStore config).registeredTasks = [])
      ∧ (¬ config.eventsKafka.brokers.length > 0 →
          ¬ config.eventsNats.servers.length > 0 →
            (configureEventStore config).eventStore
                = EventStoreChoice.redisEventRepository
              ∧ (configureEventStore config).natsProcessorStarted = false) := by
  by_cases hk : config.eventsKafka.brokers.length > 0 <;>
    by_cases hn : config.eventsNats.servers.length > 0 <;>
      simp [configureEventStore, hk, hn]

/-- C10: for every event variant that carries no job id, JobIdFromEvent
returns, alongside the error, a non-nil zero-valued Uuid rather than a
nil pointer. -/
theorem jobIdFromEvent_default_zero_uuid (e : EventSequenceEvent)
    (h : carriedJobId e = none) :
    (JobIdFromEvent e).1 = some { high64 := 0, low64 := 0 }
      ∧ ((JobIdFromEvent e).2).isSome = true := by
  cases e <;> simp_all [carriedJobId, JobIdFromEvent]

/-- Witness for C10: a concrete variant without a job id yields the
zero-valued Uuid together with an error. -/
theorem jobIdFromEvent_default_zero_uuid_witness :
    (JobIdFromEvent (EventSequenceEvent.otherEvent "unknown")).1
        = some { high64 := 0, low64 := 0 }
      ∧ ((JobIdFromEvent (EventSequenceEvent.otherEvent "unknown")).2).isSome = true :=
  jobIdFromEvent_default_zero_uuid (EventSequenceEvent.otherEvent "unknown") rfl

end Armada
